import Mathlib

/-!
Verification development for the binary geometry codec core of `sea-gis`
(coordinate hierarchy, geometry model, MBR calculator, EWKB codec,
SpatiaLite codec).  The Rust sources under `src/` are embedded shallowly:
pure functions become Lean functions, stream decoding becomes explicit
state passing on a byte list, and every fallible or aborting code path is
made explicit in an `Except` result whose error constructors distinguish
the two ways a Rust call can fail to return normally: a propagated
`std::io::Error` versus a `panic!`/`assert!`/`todo!`/`unwrap` abort.

Scalars are IEEE-754 binary64 values, represented by their 64-bit bit
pattern; the codecs only ever transport those 8 bytes verbatim
(`read_f64`/`write_f64`), and the order/equality used by the MBR
calculator and ring closing is the Rust `PartialOrd`/`PartialEq` on `f64`
(`NaN` incomparable, `-0.0 == 0.0`), reproduced below on bit patterns.
-/

set_option maxRecDepth 20000

deriving instance DecidableEq for Except

namespace SeaGis

/-- Outcome of a fallible Rust call: `ioError` models a propagated
`std::io::Error` (the normal error channel, e.g. a short read), while
`panicked` models a process abort (`panic!`, `assert_eq!`, `todo!`,
`Option::unwrap` on `None`). -/
inductive Failure where
  | ioError
  | panicked
deriving DecidableEq

/-- An `f64` as its 64-bit IEEE-754 bit pattern (what `read_f64` /
`write_f64` transport). -/
structure F64 where
  bits : Nat
deriving DecidableEq

/-- Computation rule for `Except` bind on a success. -/
@[simp]
theorem ok_bind {α β : Type} (x : α) (f : α → Except Failure β) :
    (Except.ok x : Except Failure α) >>= f = f x := rfl

/-- Computation rule for `Except` bind on a failure. -/
@[simp]
theorem error_bind {α β : Type} (e : Failure) (f : α → Except Failure β) :
    (Except.error e : Except Failure α) >>= f = .error e := rfl

/-- Map a fallible function over a list, stopping at the first failure
(the behaviour of the Rust iterator loops in the source). -/
def mapExcept {α β : Type} (f : α → Except Failure β) : List α → Except Failure (List β)
  | [] => .ok []
  | a :: t => do
    let b ← f a
    let bs ← mapExcept f t
    .ok (b :: bs)

/-- NaN test: exponent field all ones, mantissa nonzero. -/
def F64.isNaN (f : F64) : Bool :=
  (f.bits / 2 ^ 52) % 2 ^ 11 == 0x7FF && f.bits % 2 ^ 52 != 0

/-- Order key of a non-NaN double: the signed magnitude reading of the
bit pattern.  IEEE-754 binary64 is ordered by sign then (monotonically)
by the low 63 bits, and both zeros map to key 0, so on non-NaN values
`key a ≤ key b` iff `a <= b` as doubles (with `-0.0 = 0.0`). -/
def F64.key (f : F64) : Int :=
  let mag : Int := Int.ofNat (f.bits % 2 ^ 63)
  if f.bits / 2 ^ 63 % 2 == 1 then -mag else mag

/-- Rust `PartialOrd::partial_cmp` on `f64`: `none` iff either side is
NaN, otherwise the value comparison. -/
def f64PartialCmp (a b : F64) : Option Ordering :=
  if a.isNaN || b.isNaN then none
  else if a.key < b.key then some .lt
  else if b.key < a.key then some .gt
  else some .eq

/-- Rust `PartialEq::eq` on `f64` (`NaN != NaN`, `-0.0 == 0.0`). -/
def f64Beq (a b : F64) : Bool :=
  f64PartialCmp a b == some .eq

/-- `a <= b` in the `f64` partial order (false whenever either is NaN). -/
def f64Le (a b : F64) : Bool :=
  f64PartialCmp a b == some .lt || f64PartialCmp a b == some .eq

/-- `Vector<N, f64>`: one coordinate tuple (the arity 2 or 3 is tracked
at each use site, as the Rust const parameter `N` is). -/
abbrev Vec := List F64

/-- `Vector::x`: first scalar.  The Rust `self.0[0]` indexes a fixed
`[f64; N]` with `N ≥ 2`, so the default is never consulted on source
data. -/
def Vec.x (v : Vec) : F64 := v.getD 0 ⟨0⟩

/-- `Vector::y`: second scalar. -/
def Vec.y (v : Vec) : F64 := v.getD 1 ⟨0⟩

/-- Rust derived `PartialEq` on `Vector<N, f64>` (componentwise `f64`
equality; arrays of equal arity). -/
def vecBeq : Vec → Vec → Bool
  | [], [] => true
  | a :: as, b :: bs => f64Beq a b && vecBeq as bs
  | _, _ => false

/-- Rust `PartialEq` on `Option<&Vector>` (as used by
`first() != last()`). -/
def optVecBeq : Option Vec → Option Vec → Bool
  | none, none => true
  | some a, some b => vecBeq a b
  | _, _ => false

/-- `VectorArray<N, f64>`: a point sequence. -/
abbrev VectorArray := List Vec

/-- `VectorMatrix<N, f64>`: a ring sequence. -/
abbrev VectorMatrix := List VectorArray

/-- `VectorTensor<N, f64>`: a ring-sequence collection. -/
abbrev VectorTensor := List VectorMatrix

/-- Rust derived `PartialEq` on `VectorArray` (`Vec<Vector>` equality). -/
def arrayBeq : VectorArray → VectorArray → Bool
  | [], [] => true
  | a :: as, b :: bs => vecBeq a b && arrayBeq as bs
  | _, _ => false

/-- Rust derived `PartialEq` on `VectorMatrix`. -/
def matrixBeq : VectorMatrix → VectorMatrix → Bool
  | [], [] => true
  | a :: as, b :: bs => arrayBeq a b && matrixBeq as bs
  | _, _ => false

/-- Rust derived `PartialEq` on `VectorTensor`. -/
def tensorBeq : VectorTensor → VectorTensor → Bool
  | [], [] => true
  | a :: as, b :: bs => matrixBeq a b && tensorBeq as bs
  | _, _ => false

/-!
Geometry structs.  `types/polygon.rs`, `line_string.rs` and
`multi_polygon.rs` declare `srid: u32`; `point.rs`, `multi_point.rs` and
`multi_line_string.rs` were left mid-refactor with `srid: Option<u32>`,
but the accessors `Geometry::srid`/`set_srid` in `types/mod.rs` and both
codecs read and write the field as a plain `u32`, which is the view
modelled here.  The 2D and 3D variants share one struct per shape, as the
Rust `Point<2, f64>` / `Point<3, f64>` instantiations do.
-/

/-- `Point<N, f64>`. -/
structure Point where
  coordinates : Vec
  srid : Nat
deriving DecidableEq

/-- `LineString<N, f64>`. -/
structure LineString where
  coordinates : VectorArray
  srid : Nat
deriving DecidableEq

/-- `Polygon<N, f64>`. -/
structure Polygon where
  coordinates : VectorMatrix
  srid : Nat
deriving DecidableEq

/-- `MultiPoint<N, f64>`. -/
structure MultiPoint where
  coordinates : VectorArray
  srid : Nat
deriving DecidableEq

/-- `MultiLineString<N, f64>`. -/
structure MultiLineString where
  coordinates : VectorMatrix
  srid : Nat
deriving DecidableEq

/-- `MultiPolygon<N, f64>`. -/
structure MultiPolygon where
  coordinates : VectorTensor
  srid : Nat
deriving DecidableEq

/-- The tagged union `Geometry` of `types/mod.rs` (12 cases). -/
inductive Geometry where
  | point (a : Point)
  | lineString (a : LineString)
  | polygon (a : Polygon)
  | multiPoint (a : MultiPoint)
  | multiLineString (a : MultiLineString)
  | multiPolygon (a : MultiPolygon)
  | pointZ (a : Point)
  | lineStringZ (a : LineString)
  | polygonZ (a : Polygon)
  | multiPointZ (a : MultiPoint)
  | multiLineStringZ (a : MultiLineString)
  | multiPolygonZ (a : MultiPolygon)
deriving DecidableEq

/-- `GeometryKind` of `types/mod.rs` (12 supported + 2 reserved
collection kinds). -/
inductive GeometryKind where
  | point
  | lineString
  | polygon
  | multiPoint
  | multiLineString
  | multiPolygon
  | geometryCollection
  | pointZ
  | lineStringZ
  | polygonZ
  | multiPointZ
  | multiLineStringZ
  | multiPolygonZ
  | geometryCollectionZ
deriving DecidableEq

/-- `Geometry::kind` (`types/mod.rs` lines 93-108), verbatim — including
the `MultiPoint(_) => GeometryKind::MultiPolygon` arm on line 98. -/
def Geometry.kind : Geometry → GeometryKind
  | .point _ => .point
  | .lineString _ => .lineString
  | .polygon _ => .polygon
  | .multiPoint _ => .multiPolygon
  | .multiLineString _ => .multiLineString
  | .multiPolygon _ => .multiPolygon
  | .pointZ _ => .pointZ
  | .lineStringZ _ => .lineStringZ
  | .polygonZ _ => .polygonZ
  | .multiPointZ _ => .multiPointZ
  | .multiLineStringZ _ => .multiLineStringZ
  | .multiPolygonZ _ => .multiPolygonZ

/-- `Geometry::srid` (`types/mod.rs` lines 144-159). -/
def Geometry.srid : Geometry → Nat
  | .point a => a.srid
  | .lineString a => a.srid
  | .polygon a => a.srid
  | .multiPoint a => a.srid
  | .multiLineString a => a.srid
  | .multiPolygon a => a.srid
  | .pointZ a => a.srid
  | .lineStringZ a => a.srid
  | .polygonZ a => a.srid
  | .multiPointZ a => a.srid
  | .multiLineStringZ a => a.srid
  | .multiPolygonZ a => a.srid

/-- `Geometry::set_srid` (`types/mod.rs` lines 127-142). -/
def Geometry.setSrid : Geometry → Nat → Geometry
  | .point a, s => .point { a with srid := s }
  | .lineString a, s => .lineString { a with srid := s }
  | .polygon a, s => .polygon { a with srid := s }
  | .multiPoint a, s => .multiPoint { a with srid := s }
  | .multiLineString a, s => .multiLineString { a with srid := s }
  | .multiPolygon a, s => .multiPolygon { a with srid := s }
  | .pointZ a, s => .pointZ { a with srid := s }
  | .lineStringZ a, s => .lineStringZ { a with srid := s }
  | .polygonZ a, s => .polygonZ { a with srid := s }
  | .multiPointZ a, s => .multiPointZ { a with srid := s }
  | .multiLineStringZ a, s => .multiLineStringZ { a with srid := s }
  | .multiPolygonZ a, s => .multiPolygonZ { a with srid := s }

/-- The `CoordinatesRef` enum of `types/mod.rs` (owned form; the borrow
is immaterial in a value model). -/
inductive Coordinates where
  | vector2D (v : Vec)
  | vectorArray2D (a : VectorArray)
  | vectorMatrix2D (m : VectorMatrix)
  | vectorTensor2D (t : VectorTensor)
  | vector3D (v : Vec)
  | vectorArray3D (a : VectorArray)
  | vectorMatrix3D (m : VectorMatrix)
  | vectorTensor3D (t : VectorTensor)
deriving DecidableEq

/-- `Geometry::borrow_coordinates` (`types/mod.rs` lines 76-91). -/
def Geometry.borrowCoordinates : Geometry → Coordinates
  | .point a => .vector2D a.coordinates
  | .lineString a => .vectorArray2D a.coordinates
  | .polygon a => .vectorMatrix2D a.coordinates
  | .multiPoint a => .vectorArray2D a.coordinates
  | .multiLineString a => .vectorMatrix2D a.coordinates
  | .multiPolygon a => .vectorTensor2D a.coordinates
  | .pointZ a => .vector3D a.coordinates
  | .lineStringZ a => .vectorArray3D a.coordinates
  | .polygonZ a => .vectorMatrix3D a.coordinates
  | .multiPointZ a => .vectorArray3D a.coordinates
  | .multiLineStringZ a => .vectorMatrix3D a.coordinates
  | .multiPolygonZ a => .vectorTensor3D a.coordinates

/-- Rust derived `PartialEq` on `Geometry` (same variant, equal struct
fields, `f64` equality on scalars). -/
def geometryBeq : Geometry → Geometry → Bool
  | .point a, .point b => vecBeq a.coordinates b.coordinates && a.srid == b.srid
  | .lineString a, .lineString b => arrayBeq a.coordinates b.coordinates && a.srid == b.srid
  | .polygon a, .polygon b => matrixBeq a.coordinates b.coordinates && a.srid == b.srid
  | .multiPoint a, .multiPoint b => arrayBeq a.coordinates b.coordinates && a.srid == b.srid
  | .multiLineString a, .multiLineString b => matrixBeq a.coordinates b.coordinates && a.srid == b.srid
  | .multiPolygon a, .multiPolygon b => tensorBeq a.coordinates b.coordinates && a.srid == b.srid
  | .pointZ a, .pointZ b => vecBeq a.coordinates b.coordinates && a.srid == b.srid
  | .lineStringZ a, .lineStringZ b => arrayBeq a.coordinates b.coordinates && a.srid == b.srid
  | .polygonZ a, .polygonZ b => matrixBeq a.coordinates b.coordinates && a.srid == b.srid
  | .multiPointZ a, .multiPointZ b => arrayBeq a.coordinates b.coordinates && a.srid == b.srid
  | .multiLineStringZ a, .multiLineStringZ b => matrixBeq a.coordinates b.coordinates && a.srid == b.srid
  | .multiPolygonZ a, .multiPolygonZ b => tensorBeq a.coordinates b.coordinates && a.srid == b.srid
  | _, _ => false

/-!
MBR calculator (`types/vectors.rs` lines 88-123 and friends,
`types/mbr.rs`).  Rust `Iterator::min_by` keeps the first of equal minima
and `max_by` the last of equal maxima; the comparator closure is
`|a, b| a.partial_cmp(b).unwrap()`, which panics on a NaN comparison, and
the trailing `.unwrap()` panics on an empty iterator.
-/

/-- The fold inside `Iterator::min_by` (first minimum wins); a `none`
comparison is the `partial_cmp(..).unwrap()` panic. -/
def foldMin (acc : F64) : List F64 → Except Failure F64
  | [] => .ok acc
  | y :: ys =>
    match f64PartialCmp acc y with
    | none => .error .panicked
    | some .gt => foldMin y ys
    | some _ => foldMin acc ys

/-- The fold inside `Iterator::max_by` (last maximum wins). -/
def foldMax (acc : F64) : List F64 → Except Failure F64
  | [] => .ok acc
  | y :: ys =>
    match f64PartialCmp acc y with
    | none => .error .panicked
    | some .gt => foldMax acc ys
    | some _ => foldMax y ys

/-- `iter.min_by(|a, b| a.partial_cmp(b).unwrap()).unwrap()`. -/
def minByUnwrap : List F64 → Except Failure F64
  | [] => .error .panicked
  | a :: as => foldMin a as

/-- `iter.max_by(|a, b| a.partial_cmp(b).unwrap()).unwrap()`. -/
def maxByUnwrap : List F64 → Except Failure F64
  | [] => .error .panicked
  | a :: as => foldMax a as

/-- `VectorArray::min_x`. -/
def arrayMinX (a : VectorArray) : Except Failure F64 :=
  minByUnwrap (a.map Vec.x)

/-- `VectorArray::max_x`. -/
def arrayMaxX (a : VectorArray) : Except Failure F64 :=
  maxByUnwrap (a.map Vec.x)

/-- `VectorArray::min_y`. -/
def arrayMinY (a : VectorArray) : Except Failure F64 :=
  minByUnwrap (a.map Vec.y)

/-- `VectorArray::max_y`. -/
def arrayMaxY (a : VectorArray) : Except Failure F64 :=
  maxByUnwrap (a.map Vec.y)

/-- `VectorMatrix::min_x`: the minimum of the member arrays' `min_x`. -/
def matrixMinX (m : VectorMatrix) : Except Failure F64 := do
  minByUnwrap (← mapExcept arrayMinX m)

/-- `VectorMatrix::max_x`. -/
def matrixMaxX (m : VectorMatrix) : Except Failure F64 := do
  maxByUnwrap (← mapExcept arrayMaxX m)

/-- `VectorMatrix::min_y`. -/
def matrixMinY (m : VectorMatrix) : Except Failure F64 := do
  minByUnwrap (← mapExcept arrayMinY m)

/-- `VectorMatrix::max_y`. -/
def matrixMaxY (m : VectorMatrix) : Except Failure F64 := do
  maxByUnwrap (← mapExcept arrayMaxY m)

/-- `VectorTensor::min_x`. -/
def tensorMinX (t : VectorTensor) : Except Failure F64 := do
  minByUnwrap (← mapExcept matrixMinX t)

/-- `VectorTensor::max_x`. -/
def tensorMaxX (t : VectorTensor) : Except Failure F64 := do
  maxByUnwrap (← mapExcept matrixMaxX t)

/-- `VectorTensor::min_y`. -/
def tensorMinY (t : VectorTensor) : Except Failure F64 := do
  minByUnwrap (← mapExcept matrixMinY t)

/-- `VectorTensor::max_y`. -/
def tensorMaxY (t : VectorTensor) : Except Failure F64 := do
  maxByUnwrap (← mapExcept matrixMaxY t)

/-- The `MBR` struct of `types/mbr.rs`. -/
structure MBR where
  min_x : F64
  min_y : F64
  max_x : F64
  max_y : F64
deriving DecidableEq

/-- `Point::mbr` (no comparisons, total). -/
def pointMbr (p : Point) : MBR :=
  { min_x := p.coordinates.x, min_y := p.coordinates.y
    max_x := p.coordinates.x, max_y := p.coordinates.y }

/-- `MultiPoint::mbr` / `LineString::mbr` (field initialisers evaluated
in source order `min_x, max_x, min_y, max_y`). -/
def arrayMbr (c : VectorArray) : Except Failure MBR := do
  let min_x ← arrayMinX c
  let max_x ← arrayMaxX c
  let min_y ← arrayMinY c
  let max_y ← arrayMaxY c
  .ok { min_x, max_x, min_y, max_y }

/-- `Polygon::mbr` / `MultiLineString::mbr`. -/
def matrixMbr (c : VectorMatrix) : Except Failure MBR := do
  let min_x ← matrixMinX c
  let max_x ← matrixMaxX c
  let min_y ← matrixMinY c
  let max_y ← matrixMaxY c
  .ok { min_x, max_x, min_y, max_y }

/-- `MultiPolygon::mbr`. -/
def tensorMbr (c : VectorTensor) : Except Failure MBR := do
  let min_x ← tensorMinX c
  let max_x ← tensorMaxX c
  let min_y ← tensorMinY c
  let max_y ← tensorMaxY c
  .ok { min_x, max_x, min_y, max_y }

/-- `Geometry::mbr` (`types/mod.rs` lines 110-125). -/
def Geometry.mbr : Geometry → Except Failure MBR
  | .point a => .ok (pointMbr a)
  | .lineString a => arrayMbr a.coordinates
  | .polygon a => matrixMbr a.coordinates
  | .multiPoint a => arrayMbr a.coordinates
  | .multiLineString a => matrixMbr a.coordinates
  | .multiPolygon a => tensorMbr a.coordinates
  | .pointZ a => .ok (pointMbr a)
  | .lineStringZ a => arrayMbr a.coordinates
  | .polygonZ a => matrixMbr a.coordinates
  | .multiPointZ a => arrayMbr a.coordinates
  | .multiLineStringZ a => matrixMbr a.coordinates
  | .multiPolygonZ a => tensorMbr a.coordinates

/-!
Ring closing (`types/vectors.rs` lines 79-86, `types/polygon.rs`
lines 16-27).
-/

/-- `VectorArray::close_ring`: if `first() != last()` (Rust `Option`
`PartialEq`), push a clone of the first element; the
`.expect("ring must not be empty")` inside that branch is a panic when
the ring is empty. -/
def closeRing (r : VectorArray) : Except Failure VectorArray :=
  if optVecBeq r.head? r.getLast? then .ok r
  else
    match r.head? with
    | some v => .ok (r ++ [v])
    | none => .error .panicked

/-- `Polygon::new`: close every ring, then store with the default SRID
4326. -/
def polygonNew (rings : VectorMatrix) : Except Failure Polygon := do
  let closed ← mapExcept closeRing rings
  .ok { coordinates := closed, srid := 4326 }

/-!
Byte-stream primitives shared by both codecs (`byteorder` crate
behaviour).  A stream is the list of remaining bytes; reading past the
end is the `std::io::Error` of a short read.
-/

/-- Endianness selector (`byteorder::BigEndian` / `LittleEndian`). -/
inductive Endian where
  | big
  | little
deriving DecidableEq

/-- The one-byte endianness marker (`BIG_ENDIAN = 0`,
`LITTLE_ENDIAN = 1`). -/
def endianByte : Endian → Nat
  | .big => 0
  | .little => 1

/-- `read_u8`. -/
def readU8 : List Nat → Except Failure (Nat × List Nat)
  | [] => .error .ioError
  | b :: s => .ok (b, s)

/-- Read exactly `k` bytes. -/
def readBytes : Nat → List Nat → Except Failure (List Nat × List Nat)
  | 0, s => .ok ([], s)
  | _ + 1, [] => .error .ioError
  | k + 1, b :: s => do
    let (bs, s₁) ← readBytes k s
    .ok (b :: bs, s₁)

/-- Little-endian byte-list value. -/
def bytesToNatLE : List Nat → Nat
  | [] => 0
  | b :: bs => b + 256 * bytesToNatLE bs

/-- The 4 bytes of a `u32` in the given byte order. -/
def u32Bytes (e : Endian) (n : Nat) : List Nat :=
  let le := [n % 256, n / 256 % 256, n / 2 ^ 16 % 256, n / 2 ^ 24 % 256]
  match e with
  | .little => le
  | .big => le.reverse

/-- The 8 bytes of a `u64` in the given byte order. -/
def u64Bytes (e : Endian) (n : Nat) : List Nat :=
  let le := [n % 256, n / 256 % 256, n / 2 ^ 16 % 256, n / 2 ^ 24 % 256,
             n / 2 ^ 32 % 256, n / 2 ^ 40 % 256, n / 2 ^ 48 % 256, n / 2 ^ 56 % 256]
  match e with
  | .little => le
  | .big => le.reverse

/-- `write_f64::<E>` transports the 8 bytes of the bit pattern. -/
def f64Bytes (e : Endian) (f : F64) : List Nat :=
  u64Bytes e f.bits

/-- `read_u32::<E>`. -/
def readU32 (e : Endian) (s : List Nat) : Except Failure (Nat × List Nat) := do
  let (bs, s₁) ← readBytes 4 s
  match e with
  | .little => .ok (bytesToNatLE bs, s₁)
  | .big => .ok (bytesToNatLE bs.reverse, s₁)

/-- `read_f64::<E>` (the bit pattern crosses unchanged). -/
def readF64 (e : Endian) (s : List Nat) : Except Failure (F64 × List Nat) := do
  let (bs, s₁) ← readBytes 8 s
  match e with
  | .little => .ok (⟨bytesToNatLE bs⟩, s₁)
  | .big => .ok (⟨bytesToNatLE bs.reverse⟩, s₁)

/-- Decode `cnt` consecutive elements with `dec`. -/
def decodeN {α : Type} (dec : List Nat → Except Failure (α × List Nat)) :
    Nat → List Nat → Except Failure (List α × List Nat)
  | 0, s => .ok ([], s)
  | k + 1, s => do
    let (a, s₁) ← dec s
    let (as, s₂) ← decodeN dec k s₁
    .ok (a :: as, s₂)

/-!
Coordinate payload sub-codec, identical in EWKB and SpatiaLite
(`ewkb.rs` lines 250-454, `spatialite.rs` lines 363-578), parameterised
by the arity `n` (2 or 3) and the endianness.
-/

/-- `Vector::encode_*`: `for i in 0..N { write_f64(self[i]) }`.  Source
vectors are fixed `[f64; N]` arrays, so exactly `n` components exist. -/
def encodeVecN (n : Nat) (e : Endian) (v : Vec) : List Nat :=
  (List.range n).flatMap fun i => f64Bytes e (v.getD i ⟨0⟩)

/-- `Vector::decode_*`: read `n` consecutive doubles. -/
def decodeVecN (n : Nat) (e : Endian) (s : List Nat) :
    Except Failure (Vec × List Nat) :=
  decodeN (readF64 e) n s

/-- `VectorArray::encode_*`: a `u32` count then the tuples. -/
def encodeArrayN (n : Nat) (e : Endian) (a : VectorArray) : List Nat :=
  u32Bytes e a.length ++ a.flatMap (encodeVecN n e)

/-- `VectorArray::decode_*`. -/
def decodeArrayN (n : Nat) (e : Endian) (s : List Nat) :
    Except Failure (VectorArray × List Nat) := do
  let (cnt, s₁) ← readU32 e s
  decodeN (decodeVecN n e) cnt s₁

/-- `VectorMatrix::encode_*`. -/
def encodeMatrixN (n : Nat) (e : Endian) (m : VectorMatrix) : List Nat :=
  u32Bytes e m.length ++ m.flatMap (encodeArrayN n e)

/-- `VectorMatrix::decode_*`. -/
def decodeMatrixN (n : Nat) (e : Endian) (s : List Nat) :
    Except Failure (VectorMatrix × List Nat) := do
  let (cnt, s₁) ← readU32 e s
  decodeN (decodeArrayN n e) cnt s₁

/-- `VectorTensor::encode_*`. -/
def encodeTensorN (n : Nat) (e : Endian) (t : VectorTensor) : List Nat :=
  u32Bytes e t.length ++ t.flatMap (encodeMatrixN n e)

/-- `VectorTensor::decode_*`. -/
def decodeTensorN (n : Nat) (e : Endian) (s : List Nat) :
    Except Failure (VectorTensor × List Nat) := do
  let (cnt, s₁) ← readU32 e s
  decodeN (decodeMatrixN n e) cnt s₁

/-!
EWKB codec (`ewkb.rs`).
-/

/-- The `encoded` table of `GeometryKind::encode_ewkb` (`ewkb.rs`
lines 197-213): base codes 1-7, Z variants with bit `0x80000000`. -/
def GeometryKind.ewkbCode : GeometryKind → Nat
  | .point => 1
  | .lineString => 2
  | .polygon => 3
  | .multiPoint => 4
  | .multiLineString => 5
  | .multiPolygon => 6
  | .geometryCollection => 7
  | .pointZ => 0x80000001
  | .lineStringZ => 0x80000002
  | .polygonZ => 0x80000003
  | .multiPointZ => 0x80000004
  | .multiLineStringZ => 0x80000005
  | .multiPolygonZ => 0x80000006
  | .geometryCollectionZ => 0x80000007

/-- `GeometryKind::encode_ewkb`: `write_u32(encoded | 0x20000000)` — the
SRID-present bit is set unconditionally. -/
def encodeKindEwkb (e : Endian) (k : GeometryKind) : List Nat :=
  u32Bytes e (k.ewkbCode ||| 0x20000000)

/-- `GeometryKind::decode_ewkb` (`ewkb.rs` lines 218-242): mask off the
SRID bit (`& !0x20000000 = & 0xDFFFFFFF`), look the code up, and
`panic!("invalid EWKB geometry")` on anything unknown. -/
def decodeKindEwkb (e : Endian) (s : List Nat) :
    Except Failure (GeometryKind × List Nat) := do
  let (v, s₁) ← readU32 e s
  match v &&& 0xDFFFFFFF with
  | 1 => .ok (.point, s₁)
  | 2 => .ok (.lineString, s₁)
  | 3 => .ok (.polygon, s₁)
  | 4 => .ok (.multiPoint, s₁)
  | 5 => .ok (.multiLineString, s₁)
  | 6 => .ok (.multiPolygon, s₁)
  | 7 => .ok (.geometryCollection, s₁)
  | 0x80000001 => .ok (.pointZ, s₁)
  | 0x80000002 => .ok (.lineStringZ, s₁)
  | 0x80000003 => .ok (.polygonZ, s₁)
  | 0x80000004 => .ok (.multiPointZ, s₁)
  | 0x80000005 => .ok (.multiLineStringZ, s₁)
  | 0x80000006 => .ok (.multiPolygonZ, s₁)
  | 0x80000007 => .ok (.geometryCollectionZ, s₁)
  | _ => .error .panicked

/-- The per-variant coordinate payload written by
`EWKBGeometry::encode_to_stream_with_endianess` after the header (the
`match self.0` block, `ewkb.rs` lines 91-104): each shape encodes its own
coordinate structure at its own arity. -/
def ewkbPayload (e : Endian) : Geometry → List Nat
  | .point a => encodeVecN 2 e a.coordinates
  | .lineString a => encodeArrayN 2 e a.coordinates
  | .polygon a => encodeMatrixN 2 e a.coordinates
  | .multiPoint a => encodeArrayN 2 e a.coordinates
  | .multiLineString a => encodeMatrixN 2 e a.coordinates
  | .multiPolygon a => encodeTensorN 2 e a.coordinates
  | .pointZ a => encodeVecN 3 e a.coordinates
  | .lineStringZ a => encodeArrayN 3 e a.coordinates
  | .polygonZ a => encodeMatrixN 3 e a.coordinates
  | .multiPointZ a => encodeArrayN 3 e a.coordinates
  | .multiLineStringZ a => encodeMatrixN 3 e a.coordinates
  | .multiPolygonZ a => encodeTensorN 3 e a.coordinates

/-- `EWKBGeometry::encode_to_stream_with_endianess` (`ewkb.rs`
lines 75-105): endianness marker, type code (via `self.kind()`), SRID
(written unconditionally), then the payload. -/
def ewkbEncode (e : Endian) (g : Geometry) : List Nat :=
  endianByte e :: (encodeKindEwkb e g.kind ++ u32Bytes e g.srid ++ ewkbPayload e g)

/-- The kind-dispatched payload decode of
`EWKBGeometry::decode_from_stream_with_endianess` (the `match kind`
block); the two `GeometryCollection` arms are `todo!()` panics.  Each
decoded shape is built by its constructor and then has its SRID
overwritten by `set_srid`, so the constructor's default SRID never
survives; 4326 (the constructors' documented default) is used here. -/
def ewkbDecodePayload (e : Endian) (kind : GeometryKind) (s : List Nat) :
    Except Failure (Geometry × List Nat) :=
  match kind with
  | .point => do
    let (v, s₁) ← decodeVecN 2 e s
    .ok (.point { coordinates := v, srid := 4326 }, s₁)
  | .lineString => do
    let (a, s₁) ← decodeArrayN 2 e s
    .ok (.lineString { coordinates := a, srid := 4326 }, s₁)
  | .polygon => do
    let (m, s₁) ← decodeMatrixN 2 e s
    .ok (.polygon { coordinates := m, srid := 4326 }, s₁)
  | .multiPoint => do
    let (a, s₁) ← decodeArrayN 2 e s
    .ok (.multiPoint { coordinates := a, srid := 4326 }, s₁)
  | .multiLineString => do
    let (m, s₁) ← decodeMatrixN 2 e s
    .ok (.multiLineString { coordinates := m, srid := 4326 }, s₁)
  | .multiPolygon => do
    let (t, s₁) ← decodeTensorN 2 e s
    .ok (.multiPolygon { coordinates := t, srid := 4326 }, s₁)
  | .geometryCollection => .error .panicked
  | .pointZ => do
    let (v, s₁) ← decodeVecN 3 e s
    .ok (.pointZ { coordinates := v, srid := 4326 }, s₁)
  | .lineStringZ => do
    let (a, s₁) ← decodeArrayN 3 e s
    .ok (.lineStringZ { coordinates := a, srid := 4326 }, s₁)
  | .polygonZ => do
    let (m, s₁) ← decodeMatrixN 3 e s
    .ok (.polygonZ { coordinates := m, srid := 4326 }, s₁)
  | .multiPointZ => do
    let (a, s₁) ← decodeArrayN 3 e s
    .ok (.multiPointZ { coordinates := a, srid := 4326 }, s₁)
  | .multiLineStringZ => do
    let (m, s₁) ← decodeMatrixN 3 e s
    .ok (.multiLineStringZ { coordinates := m, srid := 4326 }, s₁)
  | .multiPolygonZ => do
    let (t, s₁) ← decodeTensorN 3 e s
    .ok (.multiPolygonZ { coordinates := t, srid := 4326 }, s₁)
  | .geometryCollectionZ => .error .panicked

/-- `EWKBGeometry::decode_from_stream_with_endianess` (`ewkb.rs`
lines 163-189). -/
def ewkbDecodeWithEndianess (e : Endian) (s : List Nat) :
    Except Failure Geometry := do
  let (kind, s₁) ← decodeKindEwkb e s
  let (srid, s₂) ← readU32 e s₁
  let (g, _) ← ewkbDecodePayload e kind s₂
  .ok (g.setSrid srid)

/-- `EWKBGeometry::decode_from_stream` (`ewkb.rs` lines 151-160): read
the marker; `0` selects big-endian, anything else little-endian. -/
def ewkbDecodeFromStream (s : List Nat) : Except Failure Geometry := do
  let (endianess, s₁) ← readU8 s
  if endianess == 0 then ewkbDecodeWithEndianess .big s₁
  else ewkbDecodeWithEndianess .little s₁

/-!
SpatiaLite codec (`spatialite.rs`).
-/

/-- The `encoded` table of `GeometryKind::encode_spatialite`
(`spatialite.rs` lines 285-300), verbatim — including the `10015` arm for
`MultiLineStringZ` on line 297. -/
def GeometryKind.spatialiteCode : GeometryKind → Nat
  | .point => 1
  | .lineString => 2
  | .polygon => 3
  | .multiPoint => 4
  | .multiLineString => 5
  | .multiPolygon => 6
  | .geometryCollection => 7
  | .pointZ => 1001
  | .lineStringZ => 1002
  | .polygonZ => 1003
  | .multiPointZ => 1004
  | .multiLineStringZ => 10015
  | .multiPolygonZ => 1006
  | .geometryCollectionZ => 1007

/-- `GeometryKind::encode_spatialite`. -/
def encodeKindSpatialite (e : Endian) (k : GeometryKind) : List Nat :=
  u32Bytes e k.spatialiteCode

/-- `GeometryKind::decode_spatialite` (`spatialite.rs` lines 304-328),
verbatim — including the `1007 => MultiLineStringZ` arm on line 322 — and
`panic!("unknown WKB geometry")` on anything unmatched. -/
def decodeKindSpatialite (e : Endian) (s : List Nat) :
    Except Failure (GeometryKind × List Nat) := do
  let (v, s₁) ← readU32 e s
  match v with
  | 1 => .ok (.point, s₁)
  | 2 => .ok (.lineString, s₁)
  | 3 => .ok (.polygon, s₁)
  | 4 => .ok (.multiPoint, s₁)
  | 5 => .ok (.multiLineString, s₁)
  | 6 => .ok (.multiPolygon, s₁)
  | 7 => .ok (.geometryCollection, s₁)
  | 1001 => .ok (.pointZ, s₁)
  | 1002 => .ok (.lineStringZ, s₁)
  | 1003 => .ok (.polygonZ, s₁)
  | 1004 => .ok (.multiPointZ, s₁)
  | 1005 => .ok (.multiLineStringZ, s₁)
  | 1006 => .ok (.multiPolygonZ, s₁)
  | 1007 => .ok (.multiLineStringZ, s₁)
  | _ => .error .panicked

/-- `MBR::encode_spatialite` (`spatialite.rs` lines 331-342): the four
doubles then the `0x7C` terminator. -/
def mbrEncodeSpatialite (e : Endian) (m : MBR) : List Nat :=
  f64Bytes e m.min_x ++ f64Bytes e m.min_y ++ f64Bytes e m.max_x ++
    f64Bytes e m.max_y ++ [0x7C]

/-- `MBR::decode_spatialite` (`spatialite.rs` lines 343-361): the four
doubles, then `assert_eq!(mbr_end, 0x7C)` — a panic on mismatch. -/
def mbrDecodeSpatialite (e : Endian) (s : List Nat) :
    Except Failure (MBR × List Nat) := do
  let (min_x, s₁) ← readF64 e s
  let (min_y, s₂) ← readF64 e s₁
  let (max_x, s₃) ← readF64 e s₂
  let (max_y, s₄) ← readF64 e s₃
  let (mbr_end, s₅) ← readU8 s₄
  if mbr_end == 0x7C then .ok ({ min_x, max_x, min_y, max_y }, s₅)
  else .error .panicked

/-- The per-variant SpatiaLite coordinate payload (the `match self.0`
block of `encode_to_stream_with_endianess`, `spatialite.rs`
lines 204-217); identical sub-codec to EWKB. -/
def spatialitePayload (e : Endian) : Geometry → List Nat
  | .point a => encodeVecN 2 e a.coordinates
  | .lineString a => encodeArrayN 2 e a.coordinates
  | .polygon a => encodeMatrixN 2 e a.coordinates
  | .multiPoint a => encodeArrayN 2 e a.coordinates
  | .multiLineString a => encodeMatrixN 2 e a.coordinates
  | .multiPolygon a => encodeTensorN 2 e a.coordinates
  | .pointZ a => encodeVecN 3 e a.coordinates
  | .lineStringZ a => encodeArrayN 3 e a.coordinates
  | .polygonZ a => encodeMatrixN 3 e a.coordinates
  | .multiPointZ a => encodeArrayN 3 e a.coordinates
  | .multiLineStringZ a => encodeMatrixN 3 e a.coordinates
  | .multiPolygonZ a => encodeTensorN 3 e a.coordinates

/-- `SpatiaLiteGeometry::encode_to_stream_with_endianess`
(`spatialite.rs` lines 185-223): start byte `0x00`, endianness marker,
SRID, freshly computed MBR (whose min/max folds can panic on NaN or empty
coordinates), `0x7C`, class code (via `self.kind()`), payload, end byte
`0xFE`. -/
def spatialiteEncode (e : Endian) (g : Geometry) :
    Except Failure (List Nat) := do
  let m ← g.mbr
  .ok ([0, endianByte e] ++ u32Bytes e g.srid ++ mbrEncodeSpatialite e m ++
    encodeKindSpatialite e g.kind ++ spatialitePayload e g ++ [0xFE])

/-- The kind-dispatched SpatiaLite payload decode (the `match kind` block
of `decode_from_stream_with_endianess`); `GeometryCollection` arms are
`todo!()` panics.  As in EWKB the constructor SRID is immediately
overwritten. -/
def spatialiteDecodePayload (e : Endian) (kind : GeometryKind) (s : List Nat) :
    Except Failure (Geometry × List Nat) :=
  match kind with
  | .point => do
    let (v, s₁) ← decodeVecN 2 e s
    .ok (.point { coordinates := v, srid := 4326 }, s₁)
  | .lineString => do
    let (a, s₁) ← decodeArrayN 2 e s
    .ok (.lineString { coordinates := a, srid := 4326 }, s₁)
  | .polygon => do
    let (m, s₁) ← decodeMatrixN 2 e s
    .ok (.polygon { coordinates := m, srid := 4326 }, s₁)
  | .multiPoint => do
    let (a, s₁) ← decodeArrayN 2 e s
    .ok (.multiPoint { coordinates := a, srid := 4326 }, s₁)
  | .multiLineString => do
    let (m, s₁) ← decodeMatrixN 2 e s
    .ok (.multiLineString { coordinates := m, srid := 4326 }, s₁)
  | .multiPolygon => do
    let (t, s₁) ← decodeTensorN 2 e s
    .ok (.multiPolygon { coordinates := t, srid := 4326 }, s₁)
  | .geometryCollection => .error .panicked
  | .pointZ => do
    let (v, s₁) ← decodeVecN 3 e s
    .ok (.pointZ { coordinates := v, srid := 4326 }, s₁)
  | .lineStringZ => do
    let (a, s₁) ← decodeArrayN 3 e s
    .ok (.lineStringZ { coordinates := a, srid := 4326 }, s₁)
  | .polygonZ => do
    let (m, s₁) ← decodeMatrixN 3 e s
    .ok (.polygonZ { coordinates := m, srid := 4326 }, s₁)
  | .multiPointZ => do
    let (a, s₁) ← decodeArrayN 3 e s
    .ok (.multiPointZ { coordinates := a, srid := 4326 }, s₁)
  | .multiLineStringZ => do
    let (m, s₁) ← decodeMatrixN 3 e s
    .ok (.multiLineStringZ { coordinates := m, srid := 4326 }, s₁)
  | .multiPolygonZ => do
    let (t, s₁) ← decodeTensorN 3 e s
    .ok (.multiPolygonZ { coordinates := t, srid := 4326 }, s₁)
  | .geometryCollectionZ => .error .panicked

/-- `SpatiaLiteGeometry::decode_from_stream_with_endianess`
(`spatialite.rs` lines 238-277): SRID, MBR (read and discarded), class
code, payload, `set_srid`, then `assert_eq!(end, 0xFE)` — a panic on
mismatch. -/
def spatialiteDecodeWithEndianess (e : Endian) (s : List Nat) :
    Except Failure Geometry := do
  let (srid, s₁) ← readU32 e s
  let (_mbr, s₂) ← mbrDecodeSpatialite e s₁
  let (kind, s₃) ← decodeKindSpatialite e s₂
  let (g, s₄) ← spatialiteDecodePayload e kind s₃
  let g := g.setSrid srid
  let (endB, _) ← readU8 s₄
  if endB == 0xFE then .ok g else .error .panicked

/-- `SpatiaLiteGeometry::decode_from_stream` (`spatialite.rs`
lines 225-236): `assert_eq!(start, 0)` — a panic on a bad start byte —
then the endianness marker (`0` big, anything else little). -/
def spatialiteDecodeFromStream (s : List Nat) : Except Failure Geometry := do
  let (start, s₁) ← readU8 s
  if start == 0 then do
    let (endian, s₂) ← readU8 s₁
    if endian == 0 then spatialiteDecodeWithEndianess .big s₂
    else spatialiteDecodeWithEndianess .little s₂
  else .error .panicked

/-!
Narrowing (`TryFrom<Geometry>` impls, `types/mod.rs` lines 238-250, and
the error type of `error.rs`).
-/

/-- The `Error` enum of `error.rs`. -/
inductive Error where
  | invalidGeometryKind (expecting : GeometryKind) (got : GeometryKind)
deriving DecidableEq

/-- `TryFrom<Geometry> for Point`: the mismatch arm reports
`Error::invalid_geometry_kind(GeometryKind::Point, value.kind())`. -/
def tryFromGeometryPoint : Geometry → Except Error Point
  | .point p => .ok p
  | g => .error (.invalidGeometryKind .point g.kind)

/-- `TryFrom<Geometry> for LineString`. -/
def tryFromGeometryLineString : Geometry → Except Error LineString
  | .lineString a => .ok a
  | g => .error (.invalidGeometryKind .lineString g.kind)

/-!
Concrete scalars and geometries used by the claims' literal examples.
-/

/-- `0.0`. -/
def fZero : F64 := ⟨0⟩

/-- `1.0`. -/
def fOne : F64 := ⟨0x3FF0000000000000⟩

/-- `2.0`. -/
def fTwo : F64 := ⟨0x4000000000000000⟩

/-- `3.0`. -/
def fThree : F64 := ⟨0x4008000000000000⟩

/-- `5.0`. -/
def fFive : F64 := ⟨0x4014000000000000⟩

/-- `9.0`. -/
def fNine : F64 := ⟨0x4022000000000000⟩

/-- `-1.0`. -/
def fNegOne : F64 := ⟨0xBFF0000000000000⟩

/-- `10.0`. -/
def fTen : F64 := ⟨0x4024000000000000⟩

/-- `20.0`. -/
def fTwenty : F64 := ⟨0x4034000000000000⟩

/-- The quiet NaN bit pattern. -/
def fNaN : F64 := ⟨0x7FF8000000000000⟩

/-!
Spec-side predicates: absence of NaN scalars at each level of the
coordinate hierarchy.
-/

/-- No NaN scalar in a coordinate tuple. -/
def noNaNVec (v : Vec) : Prop := ∀ f ∈ v, f.isNaN = false

/-- No NaN scalar in a point sequence. -/
def noNaNArray (a : VectorArray) : Prop := ∀ v ∈ a, noNaNVec v

/-- No NaN scalar in a ring sequence. -/
def noNaNMatrix (m : VectorMatrix) : Prop := ∀ a ∈ m, noNaNArray a

instance (v : Vec) : Decidable (noNaNVec v) := by
  unfold noNaNVec; infer_instance

instance (a : VectorArray) : Decidable (noNaNArray a) := by
  unfold noNaNArray; infer_instance

instance (m : VectorMatrix) : Decidable (noNaNMatrix m) := by
  unfold noNaNMatrix; infer_instance

/-!
Helper lemmas.
-/

/-- `read_u32` inverts `write_u32` at any endianness, leaving the rest of
the stream untouched. -/
theorem readU32_u32Bytes (e : Endian) (n : Nat) (rest : List Nat) :
    readU32 e (u32Bytes e n ++ rest) = .ok (n % 2 ^ 32, rest) := by
  have harith : bytesToNatLE
      [n % 256, n / 256 % 256, n / 2 ^ 16 % 256, n / 2 ^ 24 % 256] = n % 2 ^ 32 := by
    simp only [bytesToNatLE]
    omega
  have hl : readU32 .little (u32Bytes .little n ++ rest) =
      .ok (bytesToNatLE [n % 256, n / 256 % 256, n / 2 ^ 16 % 256, n / 2 ^ 24 % 256], rest) := rfl
  have hb : readU32 .big (u32Bytes .big n ++ rest) =
      .ok (bytesToNatLE [n % 256, n / 256 % 256, n / 2 ^ 16 % 256, n / 2 ^ 24 % 256], rest) := rfl
  cases e
  · rw [hb, harith]
  · rw [hl, harith]

/-- `f64` equality is reflexive on non-NaN values. -/
theorem f64Beq_refl (f : F64) (h : f.isNaN = false) : f64Beq f f = true := by
  simp [f64Beq, f64PartialCmp, h]
  rfl

/-- Tuple equality is reflexive on NaN-free tuples. -/
theorem vecBeq_refl (v : Vec) (h : noNaNVec v) : vecBeq v v = true := by
  induction v with
  | nil => rfl
  | cons a as ih =>
    have ha : a.isNaN = false := h a (by simp)
    have has : noNaNVec as := fun f hf => h f (by simp [hf])
    simp [vecBeq, f64Beq_refl a ha, ih has]

/-- `close_ring` never reaches its panic branch: when the branch that
pushes is taken, the ring is provably non-empty. -/
theorem closeRing_ok (r : VectorArray) : ∃ r', closeRing r = .ok r' := by
  unfold closeRing
  by_cases h : optVecBeq r.head? r.getLast? = true
  · exact ⟨r, by simp [h]⟩
  · simp only [Bool.not_eq_true] at h
    cases r with
    | nil => simp [optVecBeq] at h
    | cons v t =>
      refine ⟨(v :: t) ++ [v], ?_⟩
      rw [h]
      simp

/-- On a NaN-free ring, `close_ring` returns a ring whose first and last
tuples compare equal, on which a second `close_ring` is the identity, and
which is still NaN-free. -/
theorem closeRing_closes (r : VectorArray) (h : noNaNArray r) :
    ∃ r', closeRing r = .ok r' ∧ optVecBeq r'.head? r'.getLast? = true ∧
      closeRing r' = .ok r' ∧ noNaNArray r' := by
  by_cases hb : optVecBeq r.head? r.getLast? = true
  · exact ⟨r, by simp [closeRing, hb], hb, by simp [closeRing, hb], h⟩
  · simp only [Bool.not_eq_true] at hb
    cases r with
    | nil => simp [optVecBeq] at hb
    | cons v t =>
      have hv : noNaNVec v := h v (by simp)
      have hclosed : optVecBeq ((v :: t) ++ [v]).head? ((v :: t) ++ [v]).getLast? = true := by
        simp only [List.getLast?_concat]
        simp only [List.cons_append, List.head?_cons]
        simpa [optVecBeq] using vecBeq_refl v hv
      have henc : closeRing (v :: t) = .ok ((v :: t) ++ [v]) := by
        unfold closeRing
        rw [hb]
        simp
      have hid : closeRing ((v :: t) ++ [v]) = .ok ((v :: t) ++ [v]) := by
        unfold closeRing
        rw [hclosed]
        simp
      refine ⟨(v :: t) ++ [v], henc, hclosed, hid, ?_⟩
      intro w hw
      rcases List.mem_append.mp hw with hw | hw
      · exact h w hw
      · simp at hw; subst hw; exact hv

/-- `mapM` over `Except` succeeds elementwise, and the outputs inherit a
pointwise specification. -/
theorem mapM_spec {α β : Type} (f : α → Except Failure β) (P : α → β → Prop)
    (l : List α) (h : ∀ a ∈ l, ∃ b, f a = .ok b ∧ P a b) :
    ∃ bs, mapExcept f l = .ok bs ∧ bs.length = l.length ∧
      (∀ b ∈ bs, ∃ a ∈ l, P a b) ∧ (∀ a ∈ l, ∃ b ∈ bs, P a b) := by
  induction l with
  | nil => exact ⟨[], rfl, rfl, by simp, by simp⟩
  | cons a t ih =>
    obtain ⟨b, hb, hPb⟩ := h a (by simp)
    obtain ⟨bs, hbs, hlen, hback, hfwd⟩ := ih (fun x hx => h x (by simp [hx]))
    refine ⟨b :: bs, ?_, by simp [hlen], ?_, ?_⟩
    · simp [mapExcept, hb, hbs]
    · intro c hc
      rcases List.mem_cons.mp hc with hc | hc
      · exact ⟨a, by simp, hc ▸ hPb⟩
      · obtain ⟨x, hx, hPx⟩ := hback c hc
        exact ⟨x, by simp [hx], hPx⟩
    · intro x hx
      rcases List.mem_cons.mp hx with hx | hx
      · exact ⟨b, by simp, hx ▸ hPb⟩
      · obtain ⟨c, hc, hPc⟩ := hfwd x hx
        exact ⟨c, by simp [hc], hPc⟩

/-- `partial_cmp` on non-NaN values, described through the order key. -/
theorem f64PartialCmp_eq (a b : F64) (ha : a.isNaN = false) (hb : b.isNaN = false) :
    f64PartialCmp a b =
      some (if a.key < b.key then .lt else if b.key < a.key then .gt else .eq) := by
  simp [f64PartialCmp, ha, hb]
  split <;> simp_all
  split <;> simp_all

/-- Key order implies `f64Le` on non-NaN values. -/
theorem f64Le_of_key (a b : F64) (ha : a.isNaN = false) (hb : b.isNaN = false)
    (hk : a.key ≤ b.key) : f64Le a b = true := by
  rcases lt_or_eq_of_le hk with hk | hk
  · have hc : f64PartialCmp a b = some .lt := by
      simp [f64PartialCmp_eq a b ha hb, hk]
    unfold f64Le
    rw [hc]
    decide
  · have hc : f64PartialCmp a b = some .eq := by
      simp [f64PartialCmp_eq a b ha hb, hk]
    unfold f64Le
    rw [hc]
    decide

/-- The `min_by` fold returns a least element (by key) among the
accumulator and the list, provided no NaN appears. -/
theorem foldMin_spec (l : List F64) : ∀ acc : F64, acc.isNaN = false →
    (∀ z ∈ l, z.isNaN = false) →
    ∃ m, foldMin acc l = .ok m ∧ (m = acc ∨ m ∈ l) ∧ m.key ≤ acc.key ∧
      (∀ z ∈ l, m.key ≤ z.key) ∧ m.isNaN = false := by
  induction l with
  | nil =>
    intro acc ha _
    exact ⟨acc, rfl, .inl rfl, le_refl _, by simp, ha⟩
  | cons y ys ih =>
    intro acc ha hl
    have hy : y.isNaN = false := hl y (by simp)
    have hys : ∀ z ∈ ys, z.isNaN = false := fun z hz => hl z (by simp [hz])
    rcases lt_trichotomy acc.key y.key with hk | hk | hk
    · have hc : f64PartialCmp acc y = some .lt := by
        simp [f64PartialCmp_eq acc y ha hy, hk]
      obtain ⟨m, hm, hmem, hacc, hall, hnan⟩ := ih acc ha hys
      refine ⟨m, by simp [foldMin, hc, hm], hmem.imp id (fun hh => List.mem_cons_of_mem y hh),
        hacc, ?_, hnan⟩
      intro z hz
      rcases List.mem_cons.mp hz with hz | hz
      · exact hz ▸ le_of_lt (lt_of_le_of_lt hacc hk)
      · exact hall z hz
    · have hc : f64PartialCmp acc y = some .eq := by
        simp [f64PartialCmp_eq acc y ha hy, hk]
      obtain ⟨m, hm, hmem, hacc, hall, hnan⟩ := ih acc ha hys
      refine ⟨m, by simp [foldMin, hc, hm], hmem.imp id (fun hh => List.mem_cons_of_mem y hh),
        hacc, ?_, hnan⟩
      intro z hz
      rcases List.mem_cons.mp hz with hz | hz
      · exact hz ▸ hk ▸ hacc
      · exact hall z hz
    · have hc : f64PartialCmp acc y = some .gt := by
        simp [f64PartialCmp_eq acc y ha hy, hk, asymm hk]
      obtain ⟨m, hm, hmem, hacc, hall, hnan⟩ := ih y hy hys
      have hmem' : m ∈ y :: ys := by
        rcases hmem with hh | hh
        · simp [hh]
        · simp [hh]
      refine ⟨m, by simp [foldMin, hc, hm], .inr hmem', ?_, ?_, hnan⟩
      · exact le_of_lt (lt_of_le_of_lt hacc hk)
      · intro z hz
        rcases List.mem_cons.mp hz with hz | hz
        · exact hz ▸ hacc
        · exact hall z hz

/-- The `max_by` fold returns a greatest element (by key) among the
accumulator and the list, provided no NaN appears. -/
theorem foldMax_spec (l : List F64) : ∀ acc : F64, acc.isNaN = false →
    (∀ z ∈ l, z.isNaN = false) →
    ∃ m, foldMax acc l = .ok m ∧ (m = acc ∨ m ∈ l) ∧ acc.key ≤ m.key ∧
      (∀ z ∈ l, z.key ≤ m.key) ∧ m.isNaN = false := by
  induction l with
  | nil =>
    intro acc ha _
    exact ⟨acc, rfl, .inl rfl, le_refl _, by simp, ha⟩
  | cons y ys ih =>
    intro acc ha hl
    have hy : y.isNaN = false := hl y (by simp)
    have hys : ∀ z ∈ ys, z.isNaN = false := fun z hz => hl z (by simp [hz])
    rcases lt_trichotomy acc.key y.key with hk | hk | hk
    · have hc : f64PartialCmp acc y = some .lt := by
        simp [f64PartialCmp_eq acc y ha hy, hk]
      obtain ⟨m, hm, hmem, hacc, hall, hnan⟩ := ih y hy hys
      have hmem' : m ∈ y :: ys := by
        rcases hmem with hh | hh
        · simp [hh]
        · simp [hh]
      refine ⟨m, by simp [foldMax, hc, hm], .inr hmem',
        le_trans (le_of_lt hk) hacc, ?_, hnan⟩
      intro z hz
      rcases List.mem_cons.mp hz with hz | hz
      · exact hz ▸ hacc
      · exact hall z hz
    · have hc : f64PartialCmp acc y = some .eq := by
        simp [f64PartialCmp_eq acc y ha hy, hk]
      obtain ⟨m, hm, hmem, hacc, hall, hnan⟩ := ih y hy hys
      have hmem' : m ∈ y :: ys := by
        rcases hmem with hh | hh
        · simp [hh]
        · simp [hh]
      refine ⟨m, by simp [foldMax, hc, hm], .inr hmem',
        hk ▸ hacc, ?_, hnan⟩
      intro z hz
      rcases List.mem_cons.mp hz with hz | hz
      · exact hz ▸ hacc
      · exact hall z hz
    · have hc : f64PartialCmp acc y = some .gt := by
        simp [f64PartialCmp_eq acc y ha hy, hk, asymm hk]
      obtain ⟨m, hm, hmem, hacc, hall, hnan⟩ := ih acc ha hys
      refine ⟨m, by simp [foldMax, hc, hm], hmem.imp id (fun hh => List.mem_cons_of_mem y hh),
        hacc, ?_, hnan⟩
      intro z hz
      rcases List.mem_cons.mp hz with hz | hz
      · exact hz ▸ le_trans (le_of_lt hk) hacc
      · exact hall z hz

/-- `min_by(..).unwrap()` on a non-empty NaN-free list returns its least
element by key. -/
theorem minByUnwrap_spec (l : List F64) (h1 : l ≠ [])
    (h2 : ∀ z ∈ l, z.isNaN = false) :
    ∃ m, minByUnwrap l = .ok m ∧ m ∈ l ∧ (∀ z ∈ l, m.key ≤ z.key) ∧
      m.isNaN = false := by
  cases l with
  | nil => exact absurd rfl h1
  | cons a t =>
    obtain ⟨m, hm, hmem, hacc, hall, hnan⟩ :=
      foldMin_spec t a (h2 a (by simp)) (fun z hz => h2 z (by simp [hz]))
    refine ⟨m, hm, ?_, ?_, hnan⟩
    · rcases hmem with hmem | hmem
      · simp [hmem]
      · simp [hmem]
    · intro z hz
      rcases List.mem_cons.mp hz with hz | hz
      · exact hz ▸ hacc
      · exact hall z hz

/-- `max_by(..).unwrap()` on a non-empty NaN-free list returns its
greatest element by key. -/
theorem maxByUnwrap_spec (l : List F64) (h1 : l ≠ [])
    (h2 : ∀ z ∈ l, z.isNaN = false) :
    ∃ m, maxByUnwrap l = .ok m ∧ m ∈ l ∧ (∀ z ∈ l, z.key ≤ m.key) ∧
      m.isNaN = false := by
  cases l with
  | nil => exact absurd rfl h1
  | cons a t =>
    obtain ⟨m, hm, hmem, hacc, hall, hnan⟩ :=
      foldMax_spec t a (h2 a (by simp)) (fun z hz => h2 z (by simp [hz]))
    refine ⟨m, hm, ?_, ?_, hnan⟩
    · rcases hmem with hmem | hmem
      · simp [hmem]
      · simp [hmem]
    · intro z hz
      rcases List.mem_cons.mp hz with hz | hz
      · exact hz ▸ hacc
      · exact hall z hz

/-- The `x` projection of a NaN-free tuple is not NaN. -/
theorem x_noNaN (v : Vec) (h : noNaNVec v) : (Vec.x v).isNaN = false := by
  cases v with
  | nil => rfl
  | cons a t => exact h a (by simp)

/-- The `y` projection of a NaN-free tuple is not NaN. -/
theorem y_noNaN (v : Vec) (h : noNaNVec v) : (Vec.y v).isNaN = false := by
  cases v with
  | nil => rfl
  | cons a t =>
    cases t with
    | nil =>
      have hy : Vec.y [a] = ⟨0⟩ := rfl
      rw [hy]
      rfl
    | cons b t => exact h b (by simp)

/-- Elements of a projected NaN-free point sequence are not NaN. -/
theorem mem_map_proj_noNaN (proj : Vec → F64)
    (hproj : ∀ v, noNaNVec v → (proj v).isNaN = false)
    (c : VectorArray) (h : noNaNArray c) :
    ∀ z ∈ c.map proj, z.isNaN = false := by
  intro z hz
  obtain ⟨v, hv, rfl⟩ := List.mem_map.mp hz
  exact hproj v (h v hv)

/-- The projected minimum of a non-empty NaN-free point sequence is an
attained lower bound. -/
theorem minProj_spec (proj : Vec → F64)
    (hproj : ∀ v, noNaNVec v → (proj v).isNaN = false)
    (c : VectorArray) (h1 : c ≠ []) (h2 : noNaNArray c) :
    ∃ m, minByUnwrap (c.map proj) = .ok m ∧ m ∈ c.map proj ∧
      (∀ v ∈ c, m.key ≤ (proj v).key) ∧ m.isNaN = false := by
  have hne : c.map proj ≠ [] := by simpa using h1
  obtain ⟨m, hm, hmem, hall, hnan⟩ :=
    minByUnwrap_spec (c.map proj) hne (mem_map_proj_noNaN proj hproj c h2)
  exact ⟨m, hm, hmem, fun v hv => hall (proj v) (List.mem_map_of_mem proj hv), hnan⟩

/-- The projected maximum of a non-empty NaN-free point sequence is an
attained upper bound. -/
theorem maxProj_spec (proj : Vec → F64)
    (hproj : ∀ v, noNaNVec v → (proj v).isNaN = false)
    (c : VectorArray) (h1 : c ≠ []) (h2 : noNaNArray c) :
    ∃ m, maxByUnwrap (c.map proj) = .ok m ∧ m ∈ c.map proj ∧
      (∀ v ∈ c, (proj v).key ≤ m.key) ∧ m.isNaN = false := by
  have hne : c.map proj ≠ [] := by simpa using h1
  obtain ⟨m, hm, hmem, hall, hnan⟩ :=
    maxByUnwrap_spec (c.map proj) hne (mem_map_proj_noNaN proj hproj c h2)
  exact ⟨m, hm, hmem, fun v hv => hall (proj v) (List.mem_map_of_mem proj hv), hnan⟩

/-- The ring-sequence (matrix) minimum of a projection, computed as the
minimum of the member sequences' minima, is an attained lower bound over
all contained tuples. -/
theorem matrixMinProj_spec (minArr : VectorArray → Except Failure F64)
    (proj : Vec → F64)
    (hArr : ∀ a, a ≠ [] → noNaNArray a →
      ∃ b, minArr a = .ok b ∧ b ∈ a.map proj ∧
        (∀ v ∈ a, b.key ≤ (proj v).key) ∧ b.isNaN = false)
    (m : VectorMatrix) (h1 : m ≠ []) (h2 : ∀ a ∈ m, a ≠ [])
    (h3 : noNaNMatrix m) :
    ∃ r, (do minByUnwrap (← mapExcept minArr m)) = .ok r ∧
      (∃ a ∈ m, r ∈ a.map proj) ∧
      (∀ a ∈ m, ∀ v ∈ a, r.key ≤ (proj v).key) ∧ r.isNaN = false := by
  obtain ⟨bs, hbs, hlen, hback, hfwd⟩ := mapM_spec minArr
    (fun a b => b ∈ a.map proj ∧ (∀ v ∈ a, b.key ≤ (proj v).key) ∧
      b.isNaN = false) m
    (fun a ha => by
      obtain ⟨b, hb, hb1, hb2, hb3⟩ := hArr a (h2 a ha) (h3 a ha)
      exact ⟨b, hb, hb1, hb2, hb3⟩)
  have hbsne : bs ≠ [] := by
    intro hnil
    apply h1
    have := hlen
    rw [hnil] at this
    exact List.length_eq_zero.mp this.symm
  have hbsnan : ∀ z ∈ bs, z.isNaN = false := by
    intro z hz
    obtain ⟨a, _, _, _, hnan⟩ := hback z hz
    exact hnan
  obtain ⟨r, hr, hrmem, hrall, hrnan⟩ := minByUnwrap_spec bs hbsne hbsnan
  refine ⟨r, by simp [hbs, hr], ?_, ?_, hrnan⟩
  · obtain ⟨a, ha, hmem, _, _⟩ := hback r hrmem
    exact ⟨a, ha, hmem⟩
  · intro a ha v hv
    obtain ⟨b, hbmem, _, hallb, _⟩ := hfwd a ha
    exact le_trans (hrall b hbmem) (hallb v hv)

/-- The ring-sequence (matrix) maximum of a projection, computed as the
maximum of the member sequences' maxima, is an attained upper bound over
all contained tuples. -/
theorem matrixMaxProj_spec (maxArr : VectorArray → Except Failure F64)
    (proj : Vec → F64)
    (hArr : ∀ a, a ≠ [] → noNaNArray a →
      ∃ b, maxArr a = .ok b ∧ b ∈ a.map proj ∧
        (∀ v ∈ a, (proj v).key ≤ b.key) ∧ b.isNaN = false)
    (m : VectorMatrix) (h1 : m ≠ []) (h2 : ∀ a ∈ m, a ≠ [])
    (h3 : noNaNMatrix m) :
    ∃ r, (do maxByUnwrap (← mapExcept maxArr m)) = .ok r ∧
      (∃ a ∈ m, r ∈ a.map proj) ∧
      (∀ a ∈ m, ∀ v ∈ a, (proj v).key ≤ r.key) ∧ r.isNaN = false := by
  obtain ⟨bs, hbs, hlen, hback, hfwd⟩ := mapM_spec maxArr
    (fun a b => b ∈ a.map proj ∧ (∀ v ∈ a, (proj v).key ≤ b.key) ∧
      b.isNaN = false) m
    (fun a ha => by
      obtain ⟨b, hb, hb1, hb2, hb3⟩ := hArr a (h2 a ha) (h3 a ha)
      exact ⟨b, hb, hb1, hb2, hb3⟩)
  have hbsne : bs ≠ [] := by
    intro hnil
    apply h1
    have := hlen
    rw [hnil] at this
    exact List.length_eq_zero.mp this.symm
  have hbsnan : ∀ z ∈ bs, z.isNaN = false := by
    intro z hz
    obtain ⟨a, _, _, _, hnan⟩ := hback z hz
    exact hnan
  obtain ⟨r, hr, hrmem, hrall, hrnan⟩ := maxByUnwrap_spec bs hbsne hbsnan
  refine ⟨r, by simp [hbs, hr], ?_, ?_, hrnan⟩
  · obtain ⟨a, ha, hmem, _, _⟩ := hback r hrmem
    exact ⟨a, ha, hmem⟩
  · intro a ha v hv
    obtain ⟨b, hbmem, _, hallb, _⟩ := hfwd a ha
    exact le_trans (hallb v hv) (hrall b hbmem)

/-!
Concrete coordinate tuples for the claims' literal examples.
-/

/-- `(0, 0)`. -/
def v00 : Vec := [fZero, fZero]

/-- `(0, 1)`. -/
def v01 : Vec := [fZero, fOne]

/-- `(1, 1)`. -/
def v11 : Vec := [fOne, fOne]

/-- `(1, 0)`. -/
def v10 : Vec := [fOne, fZero]

/-- The multi-point `{(1,5), (3,2), (-1,9)}`. -/
def exMultiPointC7 : VectorArray := [[fOne, fFive], [fThree, fTwo], [fNegOne, fNine]]

/-!
Claim theorems.
-/

/-- C1: the round-trip `decode(encode(g)) == g` fails on `MultiPoint`
geometries, because `Geometry::kind` maps the `MultiPoint` variant to
`GeometryKind::MultiPolygon` (types/mod.rs line 98).  EWKB encodes an
empty 2D multi-point with the MultiPolygon type code and decodes the
bytes back as an (unequal) `MultiPolygon`; SpatiaLite encodes a
one-point 2D multi-point with class code 6 and its decoder, parsing the
payload as a multi-polygon, ends in the `assert_eq!(end, 0xFE)` abort. -/
theorem c1_kind_bug_breaks_roundtrip :
    ewkbDecodeFromStream
        (ewkbEncode .little (.multiPoint { coordinates := [], srid := 4326 })) =
      .ok (.multiPolygon { coordinates := [], srid := 4326 }) ∧
    geometryBeq (.multiPolygon { coordinates := [], srid := 4326 })
      (.multiPoint { coordinates := [], srid := 4326 }) = false ∧
    (spatialiteEncode .little
        (.multiPoint { coordinates := [[fOne, fTwo]], srid := 4326 }) >>=
      spatialiteDecodeFromStream) = .error .panicked := by
  refine ⟨by decide, by decide, by decide⟩

/-- C2 counterexample: the claimed little-endian EWKB prefix for a 2D
point at `(10.0, 20.0)` carrying no SRID — marker `0x01` followed by the
type code `0x00000001` — is not what the encoder produces: the type code
always carries the SRID-present bit (`0x20000001`). -/
theorem c2_counterexample :
    (ewkbEncode .little (.point { coordinates := [fTen, fTwenty], srid := 0 })).take 5 ≠
      [1, 1, 0, 0, 0] := by
  decide

/-- The EWKB type code written for any kind has the SRID-present bit. -/
theorem ewkbCode_sridBit (k : GeometryKind) :
    (k.ewkbCode ||| 0x20000000) % 2 ^ 32 &&& 0x20000000 = 0x20000000 := by
  cases k <;> decide

/-- C2 (amended): EWKB encoding always sets the SRID-present bit
`0x20000000` in the 4-byte type code and always writes the 4-byte SRID
field, whatever the geometry (the model carries an SRID on every
geometry; no SRID-less state exists); in particular the 2D point at
`(10.0, 20.0)` with SRID 0 encodes little-endian as marker `0x01`, type
code `0x20000001`, 4 SRID bytes, then the two 8-byte floats. -/
theorem c2_srid_always_written (e : Endian) (g : Geometry) (h : g.srid < 2 ^ 32) :
    (∃ code, readU32 e ((ewkbEncode e g).drop 1) =
        .ok (code, u32Bytes e g.srid ++ ewkbPayload e g) ∧
      code &&& 0x20000000 = 0x20000000) ∧
    readU32 e (u32Bytes e g.srid ++ ewkbPayload e g) = .ok (g.srid, ewkbPayload e g) ∧
    (ewkbEncode e g).take 1 = [endianByte e] ∧
    ewkbEncode .little (.point { coordinates := [fTen, fTwenty], srid := 0 }) =
      [1, 1, 0, 0, 0x20, 0, 0, 0, 0] ++ f64Bytes .little fTen ++ f64Bytes .little fTwenty := by
  refine ⟨⟨(g.kind.ewkbCode ||| 0x20000000) % 2 ^ 32, ?_, ewkbCode_sridBit g.kind⟩,
    ?_, by simp [ewkbEncode], by decide⟩
  · have hdrop : (ewkbEncode e g).drop 1 =
        u32Bytes e (g.kind.ewkbCode ||| 0x20000000) ++
          (u32Bytes e g.srid ++ ewkbPayload e g) := by
      simp [ewkbEncode, encodeKindEwkb, List.append_assoc]
    rw [hdrop, readU32_u32Bytes]
  · rw [readU32_u32Bytes, Nat.mod_eq_of_lt h]

/-- C2 witness: the amended statement instantiated at the example
point. -/
theorem c2_srid_always_written_witness :
    (∃ code, readU32 .little
        ((ewkbEncode .little (.point { coordinates := [fTen, fTwenty], srid := 0 })).drop 1) =
        .ok (code, u32Bytes .little
            (Geometry.point { coordinates := [fTen, fTwenty], srid := 0 }).srid ++
          ewkbPayload .little (.point { coordinates := [fTen, fTwenty], srid := 0 })) ∧
      code &&& 0x20000000 = 0x20000000) ∧
    readU32 .little (u32Bytes .little
        (Geometry.point { coordinates := [fTen, fTwenty], srid := 0 }).srid ++
        ewkbPayload .little (.point { coordinates := [fTen, fTwenty], srid := 0 })) =
      .ok ((Geometry.point { coordinates := [fTen, fTwenty], srid := 0 }).srid,
        ewkbPayload .little (.point { coordinates := [fTen, fTwenty], srid := 0 })) ∧
    (ewkbEncode .little (.point { coordinates := [fTen, fTwenty], srid := 0 })).take 1 =
      [endianByte .little] ∧
    ewkbEncode .little (.point { coordinates := [fTen, fTwenty], srid := 0 }) =
      [1, 1, 0, 0, 0x20, 0, 0, 0, 0] ++ f64Bytes .little fTen ++ f64Bytes .little fTwenty :=
  c2_srid_always_written .little (.point { coordinates := [fTen, fTwenty], srid := 0 })
    (by decide)

/-- C3: an EWKB stream whose masked type code matches no registered kind
(here `0x00000099`, little-endian) makes `decode_from_stream` hit
`panic!("invalid EWKB geometry")` — a process abort, not the error
channel; a truncated stream, by contrast, does surface as an
`std::io::Error`. -/
theorem c3_unknown_code_panics :
    ewkbDecodeFromStream [1, 0x99, 0, 0, 0] = .error .panicked ∧
    ewkbDecodeFromStream [1, 0x99] = .error .ioError := by
  refine ⟨by decide, by decide⟩

/-- C4: the SpatiaLite class-code tables are not the claimed bijection:
`MultiLineStringZ` encodes to `10015` (not 1005), the integer `1007`
decodes to `MultiLineStringZ` (not `GeometryCollectionZ`), a
`MultiLineStringZ` therefore does not survive its own encode/decode
(the decoder panics on 10015), and an unknown integer such as 99 is a
`panic!`, not a returned error. -/
theorem c4_spatialite_code_table_bugs :
    GeometryKind.multiLineStringZ.spatialiteCode = 10015 ∧
    GeometryKind.multiLineStringZ.spatialiteCode ≠ 1005 ∧
    decodeKindSpatialite .little (u32Bytes .little 1007) =
      .ok (.multiLineStringZ, []) ∧
    GeometryKind.multiLineStringZ ≠ .geometryCollectionZ ∧
    decodeKindSpatialite .little
        (u32Bytes .little GeometryKind.multiLineStringZ.spatialiteCode) =
      .error .panicked ∧
    decodeKindSpatialite .little (u32Bytes .little 99) = .error .panicked := by
  refine ⟨by decide, by decide, by decide, by decide, by decide, by decide⟩

/-- C5: the SpatiaLite decoder checks its sentinels with `assert_eq!`,
so a bad start byte (`0x01`) and a bad MBR terminator (`0x00` where
`0x7C` is required) abort the process instead of returning a decode
error; a truncated stream does use the error channel. -/
theorem c5_sentinel_mismatch_aborts :
    spatialiteDecodeFromStream [1, 1] = .error .panicked ∧
    spatialiteDecodeFromStream
        ([0, 1] ++ u32Bytes .little 4326 ++ List.replicate 32 0 ++ [0]) =
      .error .panicked ∧
    spatialiteDecodeFromStream [] = .error .ioError := by
  refine ⟨by decide, by decide, by decide⟩

/-- C6 counterexample: a ring whose single point has a NaN coordinate is
stored by `Polygon::new` as a 2-point ring whose first and last tuples
compare unequal under the `f64` equality the code itself uses
(`NaN != NaN`), so not every stored ring has equal first and last
tuples. -/
theorem c6_nan_ring_counterexample :
    polygonNew [[[fNaN, fZero]]] =
      .ok { coordinates := [[[fNaN, fZero], [fNaN, fZero]]], srid := 4326 } ∧
    optVecBeq ([[fNaN, fZero], [fNaN, fZero]] : VectorArray).head?
      ([[fNaN, fZero], [fNaN, fZero]] : VectorArray).getLast? = false := by
  refine ⟨by decide, by decide⟩

/-- C6 (amended): for every input ring sequence free of NaN coordinates,
`Polygon::new` stores rings whose first and last tuples compare equal
(`Option` equality, so the empty ring trivially qualifies) and on which
`close_ring` is the identity (idempotence); the literal example holds:
the ring `[(0,0),(0,1),(1,1),(1,0)]` is stored as 5 points ending with
`(0,0)`. -/
theorem c6_ring_closure (rings : VectorMatrix) (h : noNaNMatrix rings) :
    (∃ cs, polygonNew rings = .ok { coordinates := cs, srid := 4326 } ∧
      ∀ r ∈ cs, optVecBeq r.head? r.getLast? = true ∧ closeRing r = .ok r) ∧
    polygonNew [[v00, v01, v11, v10]] =
      .ok { coordinates := [[v00, v01, v11, v10, v00]], srid := 4326 } := by
  constructor
  · obtain ⟨cs, hcs, _, hback, _⟩ := mapM_spec closeRing
      (fun r r' => optVecBeq r'.head? r'.getLast? = true ∧ closeRing r' = .ok r')
      rings
      (fun r hr => by
        obtain ⟨r', h1, h2, h3, _⟩ := closeRing_closes r (h r hr)
        exact ⟨r', h1, h2, h3⟩)
    refine ⟨cs, by simp [polygonNew, hcs], ?_⟩
    intro r hr
    obtain ⟨a, _, hP⟩ := hback r hr
    exact hP
  · decide

/-- C6 witness: the amended statement instantiated at the literal
example ring. -/
theorem c6_ring_closure_witness :
    (∃ cs, polygonNew [[v00, v01, v11, v10]] = .ok { coordinates := cs, srid := 4326 } ∧
      ∀ r ∈ cs, optVecBeq r.head? r.getLast? = true ∧ closeRing r = .ok r) ∧
    polygonNew [[v00, v01, v11, v10]] =
      .ok { coordinates := [[v00, v01, v11, v10, v00]], srid := 4326 } :=
  c6_ring_closure [[v00, v01, v11, v10]] (by decide)

/-- C7: on a non-empty NaN-free multi-point, `mbr()` returns the
attained minimum and maximum of the first and second scalars over all
contained tuples; and, showing the recursion, on a polygon (a ring
sequence of non-empty rings) the same holds over all tuples of all
rings, the ring-sequence minimum being the minimum of the rings'
minima. -/
theorem c7_mbr_minmax (c : VectorArray) (h1 : c ≠ []) (h2 : noNaNArray c) :
    (∃ m, Geometry.mbr (.multiPoint { coordinates := c, srid := 4326 }) = .ok m ∧
      m.min_x ∈ c.map Vec.x ∧ (∀ v ∈ c, f64Le m.min_x v.x = true) ∧
      m.max_x ∈ c.map Vec.x ∧ (∀ v ∈ c, f64Le v.x m.max_x = true) ∧
      m.min_y ∈ c.map Vec.y ∧ (∀ v ∈ c, f64Le m.min_y v.y = true) ∧
      m.max_y ∈ c.map Vec.y ∧ (∀ v ∈ c, f64Le v.y m.max_y = true)) ∧
    ∀ (mx : VectorMatrix), mx ≠ [] → (∀ a ∈ mx, a ≠ []) → noNaNMatrix mx →
      ∃ mb, Geometry.mbr (.polygon { coordinates := mx, srid := 4326 }) = .ok mb ∧
        (∃ a ∈ mx, mb.min_x ∈ a.map Vec.x) ∧
        (∀ a ∈ mx, ∀ v ∈ a, f64Le mb.min_x v.x = true) ∧
        (∃ a ∈ mx, mb.max_x ∈ a.map Vec.x) ∧
        (∀ a ∈ mx, ∀ v ∈ a, f64Le v.x mb.max_x = true) ∧
        (∃ a ∈ mx, mb.min_y ∈ a.map Vec.y) ∧
        (∀ a ∈ mx, ∀ v ∈ a, f64Le mb.min_y v.y = true) ∧
        (∃ a ∈ mx, mb.max_y ∈ a.map Vec.y) ∧
        (∀ a ∈ mx, ∀ v ∈ a, f64Le v.y mb.max_y = true) := by
  constructor
  · obtain ⟨n₁, hn₁, hn₁m, hn₁a, hn₁n⟩ := minProj_spec Vec.x x_noNaN c h1 h2
    obtain ⟨x₁, hx₁, hx₁m, hx₁a, hx₁n⟩ := maxProj_spec Vec.x x_noNaN c h1 h2
    obtain ⟨n₂, hn₂, hn₂m, hn₂a, hn₂n⟩ := minProj_spec Vec.y y_noNaN c h1 h2
    obtain ⟨x₂, hx₂, hx₂m, hx₂a, hx₂n⟩ := maxProj_spec Vec.y y_noNaN c h1 h2
    refine ⟨{ min_x := n₁, min_y := n₂, max_x := x₁, max_y := x₂ }, ?_,
      hn₁m, ?_, hx₁m, ?_, hn₂m, ?_, hx₂m, ?_⟩
    · simp [Geometry.mbr, arrayMbr, arrayMinX, arrayMaxX, arrayMinY, arrayMaxY,
        hn₁, hx₁, hn₂, hx₂]
    · exact fun v hv => f64Le_of_key _ _ hn₁n (x_noNaN v (h2 v hv)) (hn₁a v hv)
    · exact fun v hv => f64Le_of_key _ _ (x_noNaN v (h2 v hv)) hx₁n (hx₁a v hv)
    · exact fun v hv => f64Le_of_key _ _ hn₂n (y_noNaN v (h2 v hv)) (hn₂a v hv)
    · exact fun v hv => f64Le_of_key _ _ (y_noNaN v (h2 v hv)) hx₂n (hx₂a v hv)
  · intro mx hm1 hm2 hm3
    obtain ⟨n₁, hn₁, hn₁m, hn₁a, hn₁n⟩ := matrixMinProj_spec arrayMinX Vec.x
      (fun a ha hn => minProj_spec Vec.x x_noNaN a ha hn) mx hm1 hm2 hm3
    obtain ⟨x₁, hx₁, hx₁m, hx₁a, hx₁n⟩ := matrixMaxProj_spec arrayMaxX Vec.x
      (fun a ha hn => maxProj_spec Vec.x x_noNaN a ha hn) mx hm1 hm2 hm3
    obtain ⟨n₂, hn₂, hn₂m, hn₂a, hn₂n⟩ := matrixMinProj_spec arrayMinY Vec.y
      (fun a ha hn => minProj_spec Vec.y y_noNaN a ha hn) mx hm1 hm2 hm3
    obtain ⟨x₂, hx₂, hx₂m, hx₂a, hx₂n⟩ := matrixMaxProj_spec arrayMaxY Vec.y
      (fun a ha hn => maxProj_spec Vec.y y_noNaN a ha hn) mx hm1 hm2 hm3
    refine ⟨{ min_x := n₁, min_y := n₂, max_x := x₁, max_y := x₂ }, ?_,
      hn₁m, ?_, hx₁m, ?_, hn₂m, ?_, hx₂m, ?_⟩
    · simp [Geometry.mbr, matrixMbr, matrixMinX, matrixMaxX, matrixMinY, matrixMaxY,
        hn₁, hx₁, hn₂, hx₂]
    · exact fun a ha v hv =>
        f64Le_of_key _ _ hn₁n (x_noNaN v (hm3 a ha v hv)) (hn₁a a ha v hv)
    · exact fun a ha v hv =>
        f64Le_of_key _ _ (x_noNaN v (hm3 a ha v hv)) hx₁n (hx₁a a ha v hv)
    · exact fun a ha v hv =>
        f64Le_of_key _ _ hn₂n (y_noNaN v (hm3 a ha v hv)) (hn₂a a ha v hv)
    · exact fun a ha v hv =>
        f64Le_of_key _ _ (y_noNaN v (hm3 a ha v hv)) hx₂n (hx₂a a ha v hv)

/-- C7 witness: the theorem instantiated at the multi-point
`{(1,5),(3,2),(-1,9)}`, whose MBR is exactly
`min_x = -1, min_y = 2, max_x = 3, max_y = 9`. -/
theorem c7_mbr_minmax_witness :
    ((∃ m, Geometry.mbr (.multiPoint { coordinates := exMultiPointC7, srid := 4326 }) = .ok m ∧
      m.min_x ∈ exMultiPointC7.map Vec.x ∧
      (∀ v ∈ exMultiPointC7, f64Le m.min_x v.x = true) ∧
      m.max_x ∈ exMultiPointC7.map Vec.x ∧
      (∀ v ∈ exMultiPointC7, f64Le v.x m.max_x = true) ∧
      m.min_y ∈ exMultiPointC7.map Vec.y ∧
      (∀ v ∈ exMultiPointC7, f64Le m.min_y v.y = true) ∧
      m.max_y ∈ exMultiPointC7.map Vec.y ∧
      (∀ v ∈ exMultiPointC7, f64Le v.y m.max_y = true)) ∧
    ∀ (mx : VectorMatrix), mx ≠ [] → (∀ a ∈ mx, a ≠ []) → noNaNMatrix mx →
      ∃ mb, Geometry.mbr (.polygon { coordinates := mx, srid := 4326 }) = .ok mb ∧
        (∃ a ∈ mx, mb.min_x ∈ a.map Vec.x) ∧
        (∀ a ∈ mx, ∀ v ∈ a, f64Le mb.min_x v.x = true) ∧
        (∃ a ∈ mx, mb.max_x ∈ a.map Vec.x) ∧
        (∀ a ∈ mx, ∀ v ∈ a, f64Le v.x mb.max_x = true) ∧
        (∃ a ∈ mx, mb.min_y ∈ a.map Vec.y) ∧
        (∀ a ∈ mx, ∀ v ∈ a, f64Le mb.min_y v.y = true) ∧
        (∃ a ∈ mx, mb.max_y ∈ a.map Vec.y) ∧
        (∀ a ∈ mx, ∀ v ∈ a, f64Le v.y mb.max_y = true)) ∧
    Geometry.mbr (.multiPoint { coordinates := exMultiPointC7, srid := 4326 }) =
      .ok { min_x := fNegOne, min_y := fTwo, max_x := fThree, max_y := fNine } :=
  ⟨c7_mbr_minmax exMultiPointC7 (by decide) (by decide), by decide⟩

/-- C8 counterexample: narrowing a Geometry that holds a `MultiPoint` to
`Point` produces a kind-mismatch error whose "got" field is
`MultiPolygon`, not the value's actual kind `MultiPoint` (the
`Geometry::kind` slip), so the error does not always carry the actual
kind. -/
theorem c8_got_kind_counterexample :
    tryFromGeometryPoint (.multiPoint { coordinates := [], srid := 4326 }) =
      .error (.invalidGeometryKind .point .multiPolygon) ∧
    GeometryKind.multiPolygon ≠ GeometryKind.multiPoint := by
  refine ⟨by decide, by decide⟩

/-- C8 (amended): narrowing a Geometry to `Point` succeeds exactly when
the value holds a point; otherwise it fails with
`InvalidGeometryKind { expecting: Point, got: value.kind() }`, where
`value.kind()` is the actual shape for every variant except
`MultiPoint`, which is misreported as `MultiPolygon`; in particular a
LineString narrows to Point with the error `expected=Point,
got=LineString`, as claimed. -/
theorem c8_narrowing :
    (∀ p, tryFromGeometryPoint (.point p) = .ok p) ∧
    (∀ a, tryFromGeometryPoint (.lineString a) =
      .error (.invalidGeometryKind .point .lineString)) ∧
    (∀ a, tryFromGeometryPoint (.polygon a) =
      .error (.invalidGeometryKind .point .polygon)) ∧
    (∀ a, tryFromGeometryPoint (.multiPoint a) =
      .error (.invalidGeometryKind .point .multiPolygon)) ∧
    (∀ a, tryFromGeometryPoint (.multiLineString a) =
      .error (.invalidGeometryKind .point .multiLineString)) ∧
    (∀ a, tryFromGeometryPoint (.multiPolygon a) =
      .error (.invalidGeometryKind .point .multiPolygon)) ∧
    (∀ a, tryFromGeometryPoint (.pointZ a) =
      .error (.invalidGeometryKind .point .pointZ)) ∧
    (∀ a, tryFromGeometryPoint (.lineStringZ a) =
      .error (.invalidGeometryKind .point .lineStringZ)) ∧
    (∀ a, tryFromGeometryPoint (.polygonZ a) =
      .error (.invalidGeometryKind .point .polygonZ)) ∧
    (∀ a, tryFromGeometryPoint (.multiPointZ a) =
      .error (.invalidGeometryKind .point .multiPointZ)) ∧
    (∀ a, tryFromGeometryPoint (.multiLineStringZ a) =
      .error (.invalidGeometryKind .point .multiLineStringZ)) ∧
    (∀ a, tryFromGeometryPoint (.multiPolygonZ a) =
      .error (.invalidGeometryKind .point .multiPolygonZ)) ∧
    tryFromGeometryPoint (.lineString { coordinates := [], srid := 4326 }) =
      .error (.invalidGeometryKind .point .lineString) :=
  ⟨fun _ => rfl, fun _ => rfl, fun _ => rfl, fun _ => rfl, fun _ => rfl,
   fun _ => rfl, fun _ => rfl, fun _ => rfl, fun _ => rfl, fun _ => rfl,
   fun _ => rfl, fun _ => rfl, rfl⟩

/-- C9: `set_srid` is frame-preserving: for any geometry and any `u32`
value, it leaves the tagged-union variant and the whole coordinate
structure unchanged (witnessed by `borrow_coordinates` and by restoring
the old SRID giving back the original value), and `srid()` then returns
the assigned value. -/
theorem c9_set_srid_frame (g : Geometry) (s : Nat) (h : s < 2 ^ 32) :
    (g.setSrid s).srid = s ∧
    (g.setSrid s).borrowCoordinates = g.borrowCoordinates ∧
    (g.setSrid s).setSrid g.srid = g := by
  cases g <;>
    simp [Geometry.setSrid, Geometry.srid, Geometry.borrowCoordinates]

/-- C9 witness: the frame property at a concrete point and SRID 42. -/
theorem c9_set_srid_frame_witness :
    ((Geometry.point { coordinates := [fZero, fZero], srid := 4326 }).setSrid 42).srid = 42 ∧
    ((Geometry.point { coordinates := [fZero, fZero], srid := 4326 }).setSrid 42).borrowCoordinates =
      (Geometry.point { coordinates := [fZero, fZero], srid := 4326 }).borrowCoordinates ∧
    ((Geometry.point { coordinates := [fZero, fZero], srid := 4326 }).setSrid 42).setSrid
        (Geometry.point { coordinates := [fZero, fZero], srid := 4326 }).srid =
      Geometry.point { coordinates := [fZero, fZero], srid := 4326 } :=
  c9_set_srid_frame (.point { coordinates := [fZero, fZero], srid := 4326 }) 42 (by decide)

/-- C10 counterexample: `Polygon::new` applied to a ring sequence
containing an empty point sequence does not panic — `first()` and
`last()` are both `None`, they compare equal, and the ring is stored
unchanged (still empty). -/
theorem c10_empty_ring_counterexample :
    polygonNew [[]] = .ok { coordinates := [[]], srid := 4326 } := by
  decide

/-- C10 (amended): the `expect("ring must not be empty")` branch of
`close_ring` is unreachable for every input: an empty ring satisfies
`first() == last()` (both `None`) and is left unchanged, so
`Polygon::new` succeeds on every input ring sequence, empty rings
included. -/
theorem c10_polygon_new_total (rings : VectorMatrix) :
    ∃ p, polygonNew rings = .ok p := by
  obtain ⟨cs, hcs, _, _, _⟩ := mapM_spec closeRing (fun _ _ => True) rings
    (fun r _ => (closeRing_ok r).imp fun r' h' => ⟨h', trivial⟩)
  exact ⟨{ coordinates := cs, srid := 4326 }, by simp [polygonNew, hcs]⟩

end SeaGis
